import Mathlib

/-
Shallow embedding of the generational collective communicator of
src/libs/full/collectives/include/hpx/collectives/detail/communicator.hpp
(class `hpx::collectives::detail::communicator_server`).

Modelling conventions:
* `std::size_t` is modelled by `Nat`; the sentinel `static_cast<std::size_t>(-1)`
  is the explicit constant `SIZE_MAX_SENTINEL = 2^64 - 1`.
* `hpx::traits::communication::operation_id_type` is `void const*`; it is
  modelled by `Nat`, with `0` playing the role of `nullptr`.
* the type-erased storage `hpx::unique_any_nonser data_` is modelled by
  `AnyData`: either empty, or a `std::vector<T>` represented as a type tag
  (standing for `T`) together with the element list (elements as `Nat`).
  `hpx::any_cast<std::vector<T>>(&data_)` succeeds exactly when the stored
  tag equals the requested tag.
* exceptions become `Except`/explicit error fields: `Err.invalid_status`
  models `HPX_THROW_EXCEPTION(hpx::error::invalid_status, ...)`,
  `Err.bad_any_cast` the throwing form of `hpx::any_cast`, and `Err.user c`
  an arbitrary exception escaping user-provided code (a finalizer).
* locking, logging and the future plumbing are concurrency scaffolding with
  no effect on the fields of the communicator; the model captures the
  state transitions each code path performs on those fields.
-/

namespace HpxCommunicator

/-- operation_id_type (`void const*`); `0` models `nullptr`. -/
abbrev OpId := Nat

/-- the value `static_cast<std::size_t>(-1)` used as default for
`num_values` and `generation` arguments. -/
def SIZE_MAX_SENTINEL : Nat := 2 ^ 64 - 1

/-- Model of `hpx::unique_any_nonser data_`: empty, or a `std::vector<T>`
with `T` identified by a numeric tag. -/
inductive AnyData : Type where
  | empty : AnyData
  | vec (tag : Nat) (contents : List Nat) : AnyData
deriving DecidableEq, Repr

/-- Errors surfaced by the communicator paths modelled here. -/
inductive Err : Type where
  | invalid_status : Err
  | bad_any_cast : Err
  | user (code : Nat) : Err
deriving DecidableEq, Repr

/-- The data members of `communicator_server` (communicator.hpp:433-441).
`current_operation_` is an `OpId` with `0` for `nullptr`. -/
structure CState : Type where
  num_sites_ : Nat
  data_ : AnyData
  on_ready_count_ : Nat
  current_operation_ : OpId
  needs_initialization_ : Bool
  data_available_ : Bool
deriving DecidableEq, Repr

/-- The state established by `communicator_server(std::size_t num_sites)`:
default member initializers of communicator.hpp:433-441 with the given
site count. -/
def construct (num_sites : Nat) : CState :=
  { num_sites_ := num_sites
    data_ := AnyData.empty
    on_ready_count_ := 0
    current_operation_ := 0
    needs_initialization_ := true
    data_available_ := false }

/-- `get_num_sites` (communicator.hpp:182-186): `num_values` of
`(std::size_t)-1` selects `num_sites_`. -/
def get_num_sites (s : CState) (num_values : Nat) : Nat :=
  if num_values = SIZE_MAX_SENTINEL then s.num_sites_ else num_values

/-- `reinitialize_data<T>` (communicator.hpp:189-204): on the first typed
access of a generation (`needs_initialization_`), clear the two flags and
replace the storage by a value-initialized `std::vector<T>(new_size)`
exactly when `any_cast<std::vector<T>>(&data_)` yields `nullptr` (empty or
differently-typed storage) or the stored vector is shorter than
`new_size`. -/
def reinit_data (tag : Nat) (num_values : Nat) (s : CState) : CState :=
  if s.needs_initialization_ then
    let new_size := get_num_sites s num_values
    let s1 := { s with needs_initialization_ := false, data_available_ := false }
    match s.data_ with
    | AnyData.empty => { s1 with data_ := AnyData.vec tag (List.replicate new_size 0) }
    | AnyData.vec t c =>
        if t = tag ∧ ¬ c.length < new_size then s1
        else { s1 with data_ := AnyData.vec tag (List.replicate new_size 0) }
  else s

/-- `access_data<T>` (communicator.hpp:206-212): `reinitialize_data<T>`
followed by `any_cast<std::vector<T>&>(data_)`, which throws
(`bad_any_cast`) when the stored type is not `std::vector<T>`. Returns the
state after reinitialization together with the vector or the error. -/
def access_data (tag : Nat) (num_values : Nat) (s : CState) :
    CState × Except Err (List Nat) :=
  let s1 := reinit_data tag num_values s
  match s1.data_ with
  | AnyData.empty => (s1, Except.error Err.bad_any_cast)
  | AnyData.vec t c =>
      if t = tag then (s1, Except.ok c) else (s1, Except.error Err.bad_any_cast)

/-- `invalidate_data` (communicator.hpp:214-225): guarded by
`if (!needs_initialization_)`; inside the guard it resets the four state
fields and leaves `data_` untouched. When `needs_initialization_` is
already `true` the body is skipped entirely. -/
def invalidate_data (s : CState) : CState :=
  if ¬ s.needs_initialization_ then
    { s with needs_initialization_ := true
             data_available_ := false
             on_ready_count_ := 0
             current_operation_ := 0 }
  else s

/-- The admission check at the head of `handle_data`
(communicator.hpp:341-368): with no active operation, a non-zero
`on_ready_count_` is a sequencing error, otherwise the arriving token
becomes `current_operation_`; with an active operation, a differing token
is an operation-type mismatch. Errors are `invalid_status` and leave the
state unmodified (the code unlocks and throws before touching any
field). -/
def admission_check (operation : OpId) (s : CState) : Except Err CState :=
  if s.current_operation_ = 0 then
    if s.on_ready_count_ ≠ 0 then Except.error Err.invalid_status
    else Except.ok { s with current_operation_ := operation }
  else if s.current_operation_ ≠ operation then Except.error Err.invalid_status
  else Except.ok s

/-- Result of one run of the `on_ready` continuation: the communicator
state afterwards, the value delivered to the site's future (`result`), and
the list of finalizer invocations with their arguments
(vector, `data_available_`, `which`) — instrumentation recording how often
and with what the provided finalizer was called. -/
structure OnReadyOut : Type where
  s : CState
  result : Except Err (Option Nat)
  calls : List (List Nat × Bool × Nat)
deriving Repr

/-- The `on_ready` continuation of `handle_data` (communicator.hpp:279-339),
modelled from `f.get()` onward for a future resolved by value (the gate
fulfils its promise with no exception). In source order: the
operation-identity re-check `current_operation_ == nullptr ||
current_operation_ != operation` throws `invalid_status`; the excessive
check `on_ready_count_ >= num_sites_` throws `invalid_status`; both throw
before the `on_exit` guard exists, so they leave the count unchanged.
After the guard is constructed every exit — finalizer returning, finalizer
throwing (`Err.user`), or `access_data` throwing `bad_any_cast` —
increments `on_ready_count_` by one. A `none` finalizer models the
`std::nullptr_t` instantiation, whose branch touches no data. The
`data_available_` passed to the finalizer is the value after `access_data`
ran (`reinitialize_data` may have just cleared it). -/
def on_ready (tag : Nat) (operation : OpId) (which : Nat) (num_values : Nat)
    (finalizer : Option (List Nat → Bool → Nat → Except Nat Nat))
    (s : CState) : OnReadyOut :=
  if s.current_operation_ = 0 ∨ s.current_operation_ ≠ operation then
    { s := s, result := Except.error Err.invalid_status, calls := [] }
  else if s.num_sites_ ≤ s.on_ready_count_ then
    { s := s, result := Except.error Err.invalid_status, calls := [] }
  else
    match finalizer with
    | none =>
        { s := { s with on_ready_count_ := s.on_ready_count_ + 1 }
          result := Except.ok none
          calls := [] }
    | some fin =>
        match access_data tag num_values s with
        | (s1, Except.ok d) =>
            let s2 := { s1 with on_ready_count_ := s1.on_ready_count_ + 1 }
            match fin d s1.data_available_ which with
            | Except.ok v =>
                { s := s2, result := Except.ok (some v)
                  calls := [(d, s1.data_available_, which)] }
            | Except.error e =>
                { s := s2, result := Except.error (Err.user e)
                  calls := [(d, s1.data_available_, which)] }
        | (s1, Except.error e) =>
            { s := { s1 with on_ready_count_ := s1.on_ready_count_ + 1 }
              result := Except.error e
              calls := [] }

/-- Result of the gate completion callback: the communicator state
afterwards, the error (if any) reported through the callback's bound
`error_code& ec` (`HPX_THROWS_IF(ec, ...)` stores into a bound `ec`
instead of throwing), and flags recording whether `invalidate_data` and
`gate.next_generation` were invoked. -/
structure CompletionOut : Type where
  s : CState
  ec : Option Err
  invalidated : Bool
  advanced : Bool
deriving DecidableEq, Repr

/-- The completion callback passed to `gate_.set` in `handle_data`
(communicator.hpp:381-411): if `on_ready_count_ != num_sites_` it unlocks,
reports `invalid_status` through `ec` and returns without further effect;
otherwise it calls `invalidate_data` and then `gate.next_generation`. -/
def completion_callback (s : CState) : CompletionOut :=
  if s.on_ready_count_ ≠ s.num_sites_ then
    { s := s, ec := some Err.invalid_status, invalidated := false, advanced := false }
  else
    { s := invalidate_data s, ec := none, invalidated := true, advanced := true }

/-- `handle_bool<ValueType>` (communicator.hpp:417-428), instantiation with
`ValueType` distinct from `bool`: `HPX_FORWARD(Data, data)`, the
identity. -/
def handle_bool_nonbool {α : Type} (data : α) : α := data

/-- A `std::vector<bool>::reference` proxy: a position in a bit-packed
vector of booleans. -/
structure VectorBoolRef : Type where
  vec : List Bool
  idx : Nat
deriving DecidableEq, Repr

/-- Reading the bit a `std::vector<bool>` proxy designates. -/
def VectorBoolRef.read (r : VectorBoolRef) : Bool :=
  r.vec.getD r.idx false

/-- `handle_bool<bool>` (communicator.hpp:417-428), instantiation with
`ValueType = bool`: `static_cast<bool>(data)` applied to the
`std::vector<bool>` proxy, yielding the standalone boolean value of the
referenced element. -/
def handle_bool_bool (data : VectorBoolRef) : Bool :=
  data.read

/-- States of a communicator constructed with `N` sites that are reachable
through the modelled operations: the `handle_data` admission check (on its
success path; its error path leaves the state unchanged), a `step`
invocation through `access_data`, a run of the `on_ready` continuation, a
run of the gate completion callback, and `invalidate_data`. -/
inductive Reachable (N : Nat) : CState → Prop where
  | start : Reachable N (construct N)
  | admission (op : OpId) (s s' : CState) :
      Reachable N s → admission_check op s = Except.ok s' → Reachable N s'
  | step_data (tag num_values : Nat) (s : CState) :
      Reachable N s → Reachable N (access_data tag num_values s).1
  | ready (tag : Nat) (op : OpId) (which num_values : Nat)
      (fin : Option (List Nat → Bool → Nat → Except Nat Nat)) (s : CState) :
      Reachable N s → Reachable N (on_ready tag op which num_values fin s).s
  | complete (s : CState) :
      Reachable N s → Reachable N (completion_callback s).s
  | invalidate (s : CState) :
      Reachable N s → Reachable N (invalidate_data s)

/-! Helper lemmas shared by the development. -/

/-- `reinitialize_data` never touches `on_ready_count_`, `num_sites_` or
`current_operation_`. -/
theorem reinit_data_preserves (tag num_values : Nat) (s : CState) :
    (reinit_data tag num_values s).on_ready_count_ = s.on_ready_count_ ∧
    (reinit_data tag num_values s).num_sites_ = s.num_sites_ ∧
    (reinit_data tag num_values s).current_operation_ = s.current_operation_ := by
  unfold reinit_data
  split_ifs with h
  · cases hd : s.data_ with
    | empty => simp
    | vec t c =>
        simp [apply_ite CState.on_ready_count_, apply_ite CState.num_sites_,
          apply_ite CState.current_operation_]
  · exact ⟨rfl, rfl, rfl⟩

/-- Characterization of `reinitialize_data` on the first typed access of
a generation: flags cleared, storage retained exactly when it already is
a sufficiently long vector of the requested type, replaced by a fresh
zero vector of the required length otherwise. -/
theorem reinit_data_eq (tag num_values : Nat) (s : CState)
    (h : s.needs_initialization_ = true) :
    reinit_data tag num_values s =
      { s with needs_initialization_ := false
               data_available_ := false
               data_ :=
                 match s.data_ with
                 | AnyData.empty =>
                     AnyData.vec tag (List.replicate (get_num_sites s num_values) 0)
                 | AnyData.vec t c =>
                     if t = tag ∧ ¬ c.length < get_num_sites s num_values then
                       AnyData.vec t c
                     else
                       AnyData.vec tag (List.replicate (get_num_sites s num_values) 0) } := by
  unfold reinit_data
  rw [if_pos h]
  cases hd : s.data_ with
  | empty => simp [hd]
  | vec t c =>
      by_cases ht : t = tag ∧ ¬ c.length < get_num_sites s num_values <;>
        simp [hd, ht]
      split_ifs <;> rfl

/-- The state component of `access_data` is exactly the state after
`reinitialize_data`. -/
theorem access_data_fst (tag num_values : Nat) (s : CState) :
    (access_data tag num_values s).1 = reinit_data tag num_values s := by
  unfold access_data
  cases hd : (reinit_data tag num_values s).data_ with
  | empty => simp [hd]
  | vec t c => by_cases ht : t = tag <;> simp [hd, ht]

/-- `access_data` never touches `on_ready_count_`, `num_sites_` or
`current_operation_`. -/
theorem access_data_preserves (tag num_values : Nat) (s : CState) :
    (access_data tag num_values s).1.on_ready_count_ = s.on_ready_count_ ∧
    (access_data tag num_values s).1.num_sites_ = s.num_sites_ ∧
    (access_data tag num_values s).1.current_operation_ = s.current_operation_ := by
  rw [access_data_fst]
  exact reinit_data_preserves tag num_values s

/-- The only error `access_data` can produce is `bad_any_cast`. -/
theorem access_data_error (tag num_values : Nat) (s : CState) (e : Err)
    (h : (access_data tag num_values s).2 = Except.error e) :
    e = Err.bad_any_cast := by
  unfold access_data at h
  cases hd : (reinit_data tag num_values s).data_ with
  | empty =>
      simp [hd] at h
      first | exact h | exact h.symm
  | vec t c =>
      by_cases ht : t = tag <;> simp [hd, ht] at h
      first | exact h | exact h.symm

/-- A run of `on_ready` either leaves the state unchanged (an exit on one
of the two sequencing checks) or increments `on_ready_count_` by exactly
one, preserves `num_sites_`, and can only do so when the count was still
below `num_sites_`. -/
theorem on_ready_state (tag : Nat) (op : OpId) (which num_values : Nat)
    (fin : Option (List Nat → Bool → Nat → Except Nat Nat)) (s : CState) :
    (on_ready tag op which num_values fin s).s = s ∨
    ((on_ready tag op which num_values fin s).s.on_ready_count_ = s.on_ready_count_ + 1 ∧
     (on_ready tag op which num_values fin s).s.num_sites_ = s.num_sites_ ∧
     s.on_ready_count_ < s.num_sites_) := by
  unfold on_ready
  split_ifs with h1 h2
  · exact Or.inl rfl
  · exact Or.inl rfl
  · have hlt : s.on_ready_count_ < s.num_sites_ := by omega
    cases fin with
    | none => exact Or.inr ⟨rfl, rfl, hlt⟩
    | some f =>
        obtain ⟨e1, e2, _⟩ := access_data_preserves tag num_values s
        rcases ha : access_data tag num_values s with ⟨s1, r⟩
        rw [ha] at e1 e2
        simp only [Prod.fst] at e1 e2
        cases r with
        | ok d =>
            cases hf : f d s1.data_available_ which <;>
              exact Or.inr ⟨by simp [ha, hf, e1], by simp [ha, hf, e2], hlt⟩
        | error e =>
            exact Or.inr ⟨by simp [ha, e1], by simp [ha, e2], hlt⟩

/-- `invalidate_data` preserves `num_sites_`. -/
theorem invalidate_data_num_sites (s : CState) :
    (invalidate_data s).num_sites_ = s.num_sites_ := by
  unfold invalidate_data
  split_ifs <;> rfl

/-- `invalidate_data` zeroes `on_ready_count_` or leaves the state
unchanged. -/
theorem invalidate_data_count (s : CState) :
    (invalidate_data s).on_ready_count_ = 0 ∨ invalidate_data s = s := by
  unfold invalidate_data
  split_ifs <;> first | exact Or.inl rfl | exact Or.inr rfl

/-- The completion callback leaves the state unchanged or applies
`invalidate_data`. -/
theorem completion_callback_state (s : CState) :
    (completion_callback s).s = s ∨ (completion_callback s).s = invalidate_data s := by
  unfold completion_callback
  split_ifs <;> first | exact Or.inl rfl | exact Or.inr rfl

/-- The success path of the admission check preserves `on_ready_count_`
and `num_sites_`. -/
theorem admission_check_ok (op : OpId) (s s' : CState)
    (h : admission_check op s = Except.ok s') :
    s'.on_ready_count_ = s.on_ready_count_ ∧ s'.num_sites_ = s.num_sites_ := by
  unfold admission_check at h
  split_ifs at h <;> cases h <;> exact ⟨rfl, rfl⟩

/-- The vector handed out by a successful `access_data` on the first typed
access of a generation: always at least the required length; exactly a
fresh zero vector of the required length when no sufficiently long vector
of the requested type was stored; the retained stored vector otherwise. -/
theorem access_data_length (tag num_values : Nat) (s s1 : CState) (d : List Nat)
    (h : s.needs_initialization_ = true)
    (ha : access_data tag num_values s = (s1, Except.ok d)) :
    get_num_sites s num_values ≤ d.length ∧
    ((∀ c, s.data_ = AnyData.vec tag c → c.length < get_num_sites s num_values) →
      d = List.replicate (get_num_sites s num_values) 0) ∧
    (∀ c, s.data_ = AnyData.vec tag c → get_num_sites s num_values ≤ c.length →
      d = c) := by
  unfold access_data at ha
  rw [reinit_data_eq tag num_values s h] at ha
  cases hd : s.data_ with
  | empty =>
      simp [hd] at ha
      obtain ⟨-, hd2⟩ := ha
      subst hd2
      refine ⟨by simp, fun _ => rfl, ?_⟩
      intro c hc
      cases hc
  | vec t c =>
      simp [hd] at ha
      split_ifs at ha with hcond
      · obtain ⟨hct, hclen⟩ := hcond
        subst hct
        simp at ha
        obtain ⟨-, hd2⟩ := ha
        subst hd2
        refine ⟨hclen, ?_, ?_⟩
        · intro hall
          exact absurd (hall c rfl) (by omega)
        · intro c' hc' hl2
          cases hc'
          rfl
      · simp at ha
        obtain ⟨-, hd2⟩ := ha
        subst hd2
        refine ⟨by simp, fun _ => rfl, ?_⟩
        intro c' hc' hlen
        injection hc' with e1 e2
        have hcl : get_num_sites s num_values ≤ c.length := by
          rw [e2]; exact hlen
        exact absurd ⟨e1, hcl⟩ hcond

/-- `num_sites_` equals the construction parameter in every reachable
state. -/
theorem reachable_num_sites (N : Nat) (s : CState) (h : Reachable N s) :
    s.num_sites_ = N := by
  induction h with
  | start => rfl
  | admission op s s' hr heq ih => rw [(admission_check_ok op s s' heq).2]; exact ih
  | step_data tag nv s hr ih => rw [(access_data_preserves tag nv s).2.1]; exact ih
  | ready tag op which nv fin s hr ih =>
      rcases on_ready_state tag op which nv fin s with h | ⟨_, h2, _⟩
      · rw [h]; exact ih
      · rw [h2]; exact ih
  | complete s hr ih =>
      rcases completion_callback_state s with h | h <;> rw [h]
      · exact ih
      · rw [invalidate_data_num_sites]; exact ih
  | invalidate s hr ih => rw [invalidate_data_num_sites]; exact ih

/-- In every reachable state the finalizer count is bounded by the site
count. -/
theorem reachable_count_le (N : Nat) (s : CState) (h : Reachable N s) :
    s.on_ready_count_ ≤ s.num_sites_ := by
  induction h with
  | start => exact Nat.zero_le _
  | admission op s s' hr heq ih =>
      obtain ⟨e1, e2⟩ := admission_check_ok op s s' heq
      omega
  | step_data tag nv s hr ih =>
      obtain ⟨e1, e2, -⟩ := access_data_preserves tag nv s
      omega
  | ready tag op which nv fin s hr ih =>
      rcases on_ready_state tag op which nv fin s with h | ⟨h1, h2, h3⟩
      · rw [h]; exact ih
      · omega
  | complete s hr ih =>
      rcases completion_callback_state s with h | h <;> rw [h]
      · exact ih
      · rcases invalidate_data_count s with h2 | h2
        · omega
        · rw [h2]; exact ih
  | invalidate s hr ih =>
      rcases invalidate_data_count s with h2 | h2
      · omega
      · rw [h2]; exact ih

/-! Claim theorems. -/

/-- C1: the gate completion callback invokes `invalidate_data` and
`gate.next_generation` if and only if `on_ready_count_ = num_sites_` when
it fires; when the counts differ it reports `invalid_status` through the
error-code channel (`ec`), performs neither call, and leaves the
communicator state unchanged. -/
theorem completion_callback_spec (s : CState) :
    (((completion_callback s).invalidated = true ∧
        (completion_callback s).advanced = true) ↔
      s.on_ready_count_ = s.num_sites_) ∧
    (s.on_ready_count_ ≠ s.num_sites_ →
      (completion_callback s).ec = some Err.invalid_status ∧
      (completion_callback s).s = s ∧
      (completion_callback s).invalidated = false ∧
      (completion_callback s).advanced = false) ∧
    (s.on_ready_count_ = s.num_sites_ →
      (completion_callback s).s = invalidate_data s ∧
      (completion_callback s).ec = none) := by
  unfold completion_callback
  split_ifs with h <;> simp_all

/-- C1 witness: on a 3-site communicator with only 2 completed finalizers
the callback reports `invalid_status` through `ec` and changes nothing. -/
theorem completion_callback_spec_witness :
    (completion_callback { construct 3 with on_ready_count_ := 2 }).ec =
        some Err.invalid_status ∧
    (completion_callback { construct 3 with on_ready_count_ := 2 }).s =
        { construct 3 with on_ready_count_ := 2 } ∧
    (completion_callback { construct 3 with on_ready_count_ := 2 }).invalidated = false ∧
    (completion_callback { construct 3 with on_ready_count_ := 2 }).advanced = false :=
  (completion_callback_spec { construct 3 with on_ready_count_ := 2 }).2.1 (by decide)

/-- C3 counterexample: starting from a state with
`needs_initialization_ = true` and `on_ready_count_ = 1`, `invalidate_data`
is a no-op (its body is guarded by `if (!needs_initialization_)`), so the
count does not become 0 as the claim requires for every starting state. -/
theorem invalidate_data_counterexample :
    ¬ ((invalidate_data { construct 3 with on_ready_count_ := 1 }).on_ready_count_ = 0) := by
  decide

/-- C3 (amended): when `needs_initialization_` is `false` at entry,
`invalidate_data` sets `needs_initialization_ = true`,
`data_available_ = false`, `on_ready_count_ = 0`,
`current_operation_ = null` and leaves `data_` (and `num_sites_`)
unchanged; when `needs_initialization_` is already `true` the call leaves
the entire state unchanged. -/
theorem invalidate_data_spec (s : CState) :
    (s.needs_initialization_ = false →
      invalidate_data s =
        { s with needs_initialization_ := true
                 data_available_ := false
                 on_ready_count_ := 0
                 current_operation_ := 0 }) ∧
    (s.needs_initialization_ = true → invalidate_data s = s) := by
  unfold invalidate_data
  constructor <;> intro h <;> simp [h]

/-- C3 witness: a state with `needs_initialization_ = false`, a pending
count and an active operation is fully reset (count to 0). -/
theorem invalidate_data_spec_witness :
    (invalidate_data
        { construct 3 with needs_initialization_ := false
                           on_ready_count_ := 2
                           current_operation_ := 7 }).on_ready_count_ = 0 := by
  rw [(invalidate_data_spec _).1 rfl]

/-- C4: the admission check fails with `invalid_status` exactly when
`current_operation_` is null with a non-zero `on_ready_count_`, or is
non-null and differs from the arriving token; in the non-error null case
it installs the arriving token, and in the non-error matching case it
leaves the state unchanged. -/
theorem admission_check_spec (operation : OpId) (s : CState) :
    (admission_check operation s = Except.error Err.invalid_status ↔
      (s.current_operation_ = 0 ∧ s.on_ready_count_ ≠ 0) ∨
      (s.current_operation_ ≠ 0 ∧ s.current_operation_ ≠ operation)) ∧
    (s.current_operation_ = 0 → s.on_ready_count_ = 0 →
      admission_check operation s =
        Except.ok { s with current_operation_ := operation }) ∧
    (s.current_operation_ ≠ 0 → s.current_operation_ = operation →
      admission_check operation s = Except.ok s) := by
  unfold admission_check
  split_ifs <;> simp_all

/-- C4 witness: on a fresh 3-site communicator (null operation, zero
count) the admission check installs token 5. -/
theorem admission_check_spec_witness :
    admission_check 5 (construct 3) =
      Except.ok { construct 3 with current_operation_ := 5 } :=
  (admission_check_spec 5 (construct 3)).2.1 rfl rfl

/-- C9: `handle_bool` is the identity for every non-bool `ValueType`, and
for `ValueType = bool` it converts the `std::vector<bool>` proxy into the
standalone boolean value of the referenced element, so a stored bool read
out through it equals the value written. -/
theorem handle_bool_spec (x : Nat) (v : List Bool) (i : Nat) (b : Bool)
    (h : i < v.length) :
    handle_bool_nonbool x = x ∧
    handle_bool_bool { vec := v.set i b, idx := i } = b := by
  refine ⟨rfl, ?_⟩
  simp [handle_bool_bool, VectorBoolRef.read, List.getD_eq_getElem?_getD,
    List.getElem?_set_self, h]

/-- C9 witness: writing `true` at index 1 of a two-element bool vector and
reading it back through `handle_bool` yields `true`. -/
theorem handle_bool_spec_witness :
    handle_bool_nonbool 7 = 7 ∧
    handle_bool_bool { vec := [true, false].set 1 true, idx := 1 } = true :=
  handle_bool_spec 7 [true, false] 1 true (by decide)

/-- C10: when `handle_data` is entered with the null operation token (the
unspecialized `communicator_data<Operation>::id()`), a successful
admission check leaves `current_operation_` null, and every run of the
`on_ready` continuation for a null-token arrival fails with
`invalid_status` (its re-check treats both a null `current_operation_` and
any mismatch as errors), leaving the state unchanged. -/
theorem null_operation_spec (s s' : CState)
    (h : admission_check 0 s = Except.ok s') :
    s'.current_operation_ = 0 ∧
    ∀ (tag which num_values : Nat)
      (fin : Option (List Nat → Bool → Nat → Except Nat Nat)) (s2 : CState),
      (on_ready tag 0 which num_values fin s2).result =
          Except.error Err.invalid_status ∧
      (on_ready tag 0 which num_values fin s2).s = s2 := by
  constructor
  · unfold admission_check at h
    split_ifs at h with h1 h2
    cases h
    rfl
  · intro tag which num_values fin s2
    have hcond : s2.current_operation_ = 0 ∨ s2.current_operation_ ≠ 0 := by
      exact em _
    unfold on_ready
    rw [if_pos hcond]
    exact ⟨rfl, rfl⟩

/-- C10 witness: on a fresh 3-site communicator the null-token admission
succeeds with `current_operation_` still null, and a null-token `on_ready`
run fails with `invalid_status` without touching the state. -/
theorem null_operation_spec_witness :
    (construct 3).current_operation_ = 0 ∧
    (on_ready 1 0 0 SIZE_MAX_SENTINEL none (construct 3)).result =
        Except.error Err.invalid_status ∧
    (on_ready 1 0 0 SIZE_MAX_SENTINEL none (construct 3)).s = construct 3 := by
  obtain ⟨h1, h2⟩ := null_operation_spec (construct 3) (construct 3) rfl
  exact ⟨h1, h2 1 0 SIZE_MAX_SENTINEL none (construct 3)⟩

/-- C2 counterexample: an `on_ready` run that exits on the
operation-identity re-check (here: `current_operation_` null on a fresh
3-site communicator) leaves `on_ready_count_` unchanged instead of
incrementing it, because the `on_exit` increment guard is constructed only
after both sequencing checks. -/
theorem on_ready_increment_counterexample :
    ¬ ((on_ready 1 7 0 SIZE_MAX_SENTINEL none (construct 3)).s.on_ready_count_ =
        (construct 3).on_ready_count_ + 1) := by
  decide

/-- C2 (amended): every exit path of `on_ready` taken after both
sequencing checks pass increments `on_ready_count_` by exactly one —
whether the finalizer returns, the finalizer throws, or the typed access
throws — while the exits on the operation-identity re-check or the
excessive-on_ready check leave `on_ready_count_` unchanged. -/
theorem on_ready_increment_spec (tag : Nat) (op : OpId) (which num_values : Nat)
    (fin : Option (List Nat → Bool → Nat → Except Nat Nat)) (s : CState) :
    (¬ (s.current_operation_ = 0 ∨ s.current_operation_ ≠ op) →
      s.on_ready_count_ < s.num_sites_ →
      (on_ready tag op which num_values fin s).s.on_ready_count_ =
        s.on_ready_count_ + 1) ∧
    ((s.current_operation_ = 0 ∨ s.current_operation_ ≠ op ∨
        s.num_sites_ ≤ s.on_ready_count_) →
      (on_ready tag op which num_values fin s).s.on_ready_count_ =
        s.on_ready_count_) := by
  constructor
  · intro h1 h2
    unfold on_ready
    rw [if_neg h1, if_neg (by omega : ¬ s.num_sites_ ≤ s.on_ready_count_)]
    cases fin with
    | none => rfl
    | some f =>
        obtain ⟨e1, _, _⟩ := access_data_preserves tag num_values s
        rcases ha : access_data tag num_values s with ⟨s1, r⟩
        rw [ha] at e1
        simp only [Prod.fst] at e1
        cases r with
        | ok d =>
            cases hf : f d s1.data_available_ which <;> simp [ha, hf, e1]
        | error e => simp [ha, e1]
  · intro h
    by_cases h1 : s.current_operation_ = 0 ∨ s.current_operation_ ≠ op
    · unfold on_ready
      rw [if_pos h1]
    · have h2 : s.num_sites_ ≤ s.on_ready_count_ := by
        rcases h with h | h | h
        · exact absurd (Or.inl h) h1
        · exact absurd (Or.inr h) h1
        · exact h
      unfold on_ready
      rw [if_neg h1, if_pos h2]

/-- C2 witness: with an active matching operation and count 0 below
`num_sites_ = 3`, a null-finalizer `on_ready` run raises the count to 1. -/
theorem on_ready_increment_spec_witness :
    (on_ready 1 5 0 SIZE_MAX_SENTINEL none
        { construct 3 with current_operation_ := 5 }).s.on_ready_count_ =
      { construct 3 with current_operation_ := 5 }.on_ready_count_ + 1 :=
  (on_ready_increment_spec 1 5 0 SIZE_MAX_SENTINEL none
      { construct 3 with current_operation_ := 5 }).1 (by decide) (by decide)

/-- C7: on the first typed access of a generation
(`needs_initialization_ = true`), `reinitialize_data` replaces the stored
data by a fresh value-initialized vector of the required length
(`num_sites_`, or the explicit `num_values` when it is not the `-1`
sentinel) exactly when the stored value is not a vector of the requested
element type of at least that length; otherwise the stored contents are
retained unchanged; in both cases `needs_initialization_` and
`data_available_` become `false`. -/
theorem reinit_data_spec (tag num_values : Nat) (s : CState)
    (h : s.needs_initialization_ = true) :
    (reinit_data tag num_values s).needs_initialization_ = false ∧
    (reinit_data tag num_values s).data_available_ = false ∧
    ((∃ c, s.data_ = AnyData.vec tag c ∧ get_num_sites s num_values ≤ c.length) →
      (reinit_data tag num_values s).data_ = s.data_) ∧
    (¬ (∃ c, s.data_ = AnyData.vec tag c ∧ get_num_sites s num_values ≤ c.length) →
      (reinit_data tag num_values s).data_ =
        AnyData.vec tag (List.replicate (get_num_sites s num_values) 0)) := by
  rw [reinit_data_eq tag num_values s h]
  refine ⟨rfl, rfl, ?_, ?_⟩
  · rintro ⟨c, hc, hlen⟩
    simp [hc]
    omega
  · intro hne
    cases hd : s.data_ with
    | empty => simp [hd]
    | vec t c =>
        simp [hd]
        intro h1 h2
        subst h1
        exact absurd ⟨c, hd, h2⟩ hne

/-- C7 witness: a fresh 2-site communicator (empty storage) gets a fresh
zero vector of length 2 on first access, with both flags cleared. -/
theorem reinit_data_spec_witness :
    (reinit_data 1 SIZE_MAX_SENTINEL (construct 2)).needs_initialization_ = false ∧
    (reinit_data 1 SIZE_MAX_SENTINEL (construct 2)).data_available_ = false ∧
    (reinit_data 1 SIZE_MAX_SENTINEL (construct 2)).data_ =
      AnyData.vec 1 (List.replicate (get_num_sites (construct 2) SIZE_MAX_SENTINEL) 0) := by
  obtain ⟨h1, h2, _, h4⟩ := reinit_data_spec 1 SIZE_MAX_SENTINEL (construct 2) rfl
  exact ⟨h1, h2, h4 (by rintro ⟨c, hc, -⟩; cases hc)⟩

/-- C5: an `on_ready` run with a provided finalizer fails with
`invalid_status` exactly when the stored `current_operation_` is null or
differs from the arrival's token, or `on_ready_count_` has already reached
`num_sites_`; otherwise (when the typed access succeeds, yielding vector
`d` and flag `data_available_`) the finalizer is invoked exactly once with
`(d, data_available_, which)` and its return value becomes the site's
result. -/
theorem on_ready_finalizer_spec (tag : Nat) (op : OpId) (which num_values : Nat)
    (fin : List Nat → Bool → Nat → Except Nat Nat) (s : CState) :
    ((on_ready tag op which num_values (some fin) s).result =
        Except.error Err.invalid_status ↔
      (s.current_operation_ = 0 ∨ s.current_operation_ ≠ op ∨
        s.num_sites_ ≤ s.on_ready_count_)) ∧
    (¬ (s.current_operation_ = 0 ∨ s.current_operation_ ≠ op ∨
        s.num_sites_ ≤ s.on_ready_count_) →
      ∀ (s1 : CState) (d : List Nat),
        access_data tag num_values s = (s1, Except.ok d) →
        (on_ready tag op which num_values (some fin) s).calls =
          [(d, s1.data_available_, which)] ∧
        ∀ v : Nat, fin d s1.data_available_ which = Except.ok v →
          (on_ready tag op which num_values (some fin) s).result =
            Except.ok (some v)) := by
  by_cases h1 : s.current_operation_ = 0 ∨ s.current_operation_ ≠ op
  · refine ⟨?_, ?_⟩
    · unfold on_ready
      rw [if_pos h1]
      exact iff_of_true rfl (h1.elim Or.inl fun x => Or.inr (Or.inl x))
    · intro h2
      exact absurd (h1.elim Or.inl fun x => Or.inr (Or.inl x)) h2
  · by_cases h2 : s.num_sites_ ≤ s.on_ready_count_
    · refine ⟨?_, ?_⟩
      · unfold on_ready
        rw [if_neg h1, if_pos h2]
        exact iff_of_true rfl (Or.inr (Or.inr h2))
      · intro h3
        exact absurd (Or.inr (Or.inr h2)) h3
    · obtain ⟨h1a, h1b⟩ := not_or.mp h1
      have hop : s.current_operation_ = op := not_not.mp h1b
      have hop0 : ¬ op = 0 := by rw [← hop]; exact h1a
      refine ⟨?_, ?_⟩
      · unfold on_ready
        rw [if_neg h1, if_neg h2]
        rcases ha : access_data tag num_values s with ⟨s1, r⟩
        cases r with
        | ok d =>
            cases hf : fin d s1.data_available_ which <;>
              simp [ha, hf, h1a, hop, hop0, h2]
        | error e =>
            have he : e = Err.bad_any_cast :=
              access_data_error tag num_values s e (by rw [ha])
            subst he
            simp [ha, h1a, hop, hop0, h2]
      · intro h3 s1 d ha
        refine ⟨?_, ?_⟩
        · unfold on_ready
          rw [if_neg h1, if_neg h2]
          cases hf : fin d s1.data_available_ which <;> simp [ha, hf]
        · intro v hv
          unfold on_ready
          rw [if_neg h1, if_neg h2]
          simp [ha, hv]

/-- C5 witness: on a 2-site communicator with matching active operation 5,
a finalizer returning the vector length plus the site index is called once
with the fresh zero vector of length 2, flag `false` and site 0, and the
site's result is 2. -/
theorem on_ready_finalizer_spec_witness :
    (on_ready 1 5 0 SIZE_MAX_SENTINEL
        (some fun d _ w => Except.ok (d.length + w))
        { construct 2 with current_operation_ := 5 }).calls =
      [(List.replicate 2 0, false, 0)] ∧
    (on_ready 1 5 0 SIZE_MAX_SENTINEL
        (some fun d _ w => Except.ok (d.length + w))
        { construct 2 with current_operation_ := 5 }).result =
      Except.ok (some 2) := by
  obtain ⟨hc, hr⟩ :=
    (on_ready_finalizer_spec 1 5 0 SIZE_MAX_SENTINEL
        (fun d _ w => Except.ok (d.length + w))
        { construct 2 with current_operation_ := 5 }).2
      (by decide)
      { construct 2 with current_operation_ := 5
                         needs_initialization_ := false
                         data_ := AnyData.vec 1 (List.replicate 2 0) }
      (List.replicate 2 0) rfl
  exact ⟨hc, hr 2 rfl⟩

/-- C6 counterexample: a generation that accessed the data with an
explicit `num_values = 5` leaves a length-5 vector behind; after
`invalidate_data` the next generation (same element type, no explicit
`num_values`) retains that vector, so its finalizer observes a vector of
length 5 on a 3-site communicator instead of `num_sites = 3`. -/
theorem finalizer_vector_length_counterexample :
    ∃ p ∈ (on_ready 1 9 0 SIZE_MAX_SENTINEL
        (some fun d _ _ => Except.ok d.length)
        { invalidate_data
            (access_data 1 5 { construct 3 with current_operation_ := 9 }).1 with
          current_operation_ := 9 }).calls,
      p.1.length ≠ (construct 3).num_sites_ := by
  decide

/-- C6 (amended): at the first typed access of a generation
(`needs_initialization_ = true`), the vector passed to the finalizer by
`on_ready` has length at least `num_sites_` (or at least the explicit
`num_values` when one was passed); it is exactly a fresh zero vector of
that required length when no sufficiently long vector of the element type
was retained, while a retained vector keeps its (possibly larger)
contents. -/
theorem finalizer_vector_length_spec (tag : Nat) (op : OpId)
    (which num_values : Nat)
    (fin : List Nat → Bool → Nat → Except Nat Nat) (s : CState)
    (h : s.needs_initialization_ = true) :
    ∀ p ∈ (on_ready tag op which num_values (some fin) s).calls,
      get_num_sites s num_values ≤ p.1.length ∧
      ((∀ c, s.data_ = AnyData.vec tag c →
          c.length < get_num_sites s num_values) →
        p.1 = List.replicate (get_num_sites s num_values) 0) ∧
      (∀ c, s.data_ = AnyData.vec tag c →
        get_num_sites s num_values ≤ c.length → p.1 = c) := by
  intro p hp
  revert hp
  unfold on_ready
  split_ifs with h1 h2
  · intro hp; cases hp
  · intro hp; cases hp
  · rcases ha : access_data tag num_values s with ⟨s1, r⟩
    cases r with
    | ok d =>
        cases hf : fin d s1.data_available_ which <;>
          · simp only [ha, hf]
            intro hp
            simp at hp
            subst hp
            simpa using access_data_length tag num_values s s1 d h ha
    | error e =>
        simp [ha]

/-- C6 amended witness: on a fresh 2-site communicator with matching
operation the finalizer-visible vector has at least the required length
2. -/
theorem finalizer_vector_length_spec_witness :
    get_num_sites { construct 2 with current_operation_ := 3 }
        SIZE_MAX_SENTINEL ≤ (List.replicate 2 (0 : Nat)).length :=
  (finalizer_vector_length_spec 1 3 0 SIZE_MAX_SENTINEL
      (fun _ _ _ => Except.ok 0)
      { construct 2 with current_operation_ := 3 } rfl
      (List.replicate 2 (0 : Nat), false, 0) (by decide)).1

/-- C8: in every state reachable by admission checks, `step` data
accesses, `on_ready` runs, gate completion callbacks and `invalidate_data`
calls on a communicator constructed with `N` sites, the invariant
`0 ≤ on_ready_count_ ≤ N` holds. -/
theorem on_ready_count_invariant (N : Nat) (s : CState) (h : Reachable N s) :
    0 ≤ s.on_ready_count_ ∧ s.on_ready_count_ ≤ N := by
  refine ⟨Nat.zero_le _, ?_⟩
  rw [← reachable_num_sites N s h]
  exact reachable_count_le N s h

/-- C8 witness: the state after an admission of operation 5 followed by an
`on_ready` run on a fresh 3-site communicator (count 1) satisfies the
bound. -/
theorem on_ready_count_invariant_witness :
    0 ≤ (on_ready 1 5 0 SIZE_MAX_SENTINEL none
          { construct 3 with current_operation_ := 5 }).s.on_ready_count_ ∧
    (on_ready 1 5 0 SIZE_MAX_SENTINEL none
          { construct 3 with current_operation_ := 5 }).s.on_ready_count_ ≤ 3 :=
  on_ready_count_invariant 3 _
    (Reachable.ready 1 5 0 SIZE_MAX_SENTINEL none
      { construct 3 with current_operation_ := 5 }
      (Reachable.admission 5 (construct 3)
        { construct 3 with current_operation_ := 5 } Reachable.start rfl))

end HpxCommunicator
